import Mathlib

/-
Verification of the rclrs action-server core (src/rclrs/src/action/server.rs and
src/rclrs/src/action.rs) against its natural-language specification.

The embedding is shallow: the middleware (rcl_action_*) primitives are oracles
whose outcomes are explicit parameters, registry HashMaps become association
lists, and every protocol message emitted through the middleware is recorded in
an event trace.  Functions are named after the Rust functions they embed.
-/

set_option autoImplicit false

namespace Rclrs

/-- Return codes of the rcl layer that the Rust code matches on
(`RclReturnCode::Timeout`, `RclReturnCode::ServiceTakeFailed`); every other
code is collapsed into `other`. -/
inductive RclReturnCode
  | timeout
  | serviceTakeFailed
  | other (code : Int)
deriving DecidableEq

/-- The rclrs error type as matched by server.rs: `RclrsError::RclError { code, .. }`
plus the non-rcl variants.  `invalidTransition` is Modelled from the spec:
error kind `InvalidTransition` of the goal state machine (spec section 7); the
concrete error enum for it is not under src/. -/
inductive RclrsError
  | rclError (code : RclReturnCode)
  | stringContainsNul
  | invalidTransition
deriving DecidableEq

/-- Goal states of the per-goal state machine (spec section 4.B). -/
inductive GoalStatus
  | accepted
  | executing
  | canceling
  | succeeded
  | canceled
  | aborted
deriving DecidableEq

/-- Opaque 16-byte goal identifier (`GoalUuid`); only equality is used, so a
natural number stands in for the byte array. -/
abbrev GoalUuid := Nat

/-- Client request identifier (`rmw_request_id_t`); opaque, equality only. -/
abbrev RequestId := Nat

/-- One entry of the cancel response's `goals_canceling` array
(`action_msgs__msg__GoalInfo`): goal id plus acceptance timestamp. -/
structure GoalInfo where
  uuid : GoalUuid
  stamp : Int
deriving DecidableEq

/-- User goal-callback verdict (action.rs). -/
inductive GoalResponse
  | reject
  | acceptAndExecute
  | acceptAndDefer
deriving DecidableEq

/-- User cancel-callback verdict (action.rs). -/
inductive CancelResponse
  | reject
  | accept
deriving DecidableEq

/-- A get-result response message (`GetResultService::Response` RmwMsg): a
status code and an opaque result payload, the payload modelled by a number. -/
structure ResultMsg where
  status : Int
  payload : Nat
deriving DecidableEq

/-- Embeds `<T as ActionImpl>::create_result_response(status, payload)`. -/
def create_result_response (status : Int) (payload : Nat) : ResultMsg :=
  ⟨status, payload⟩

/-- The default-valued result payload, `<T::Result as Message>::RmwMsg::default()`. -/
def nullResultPayload : Nat := 0

/-- Association-list lookup, embedding `HashMap::get`. -/
def alookup {β : Type} : List (GoalUuid × β) → GoalUuid → Option β
  | [], _ => none
  | (k, v) :: rest, k' => if k = k' then some v else alookup rest k'

/-- Association-list key removal, embedding `HashMap::remove`. -/
def aremove {β : Type} : List (GoalUuid × β) → GoalUuid → List (GoalUuid × β)
  | [], _ => []
  | (k, v) :: rest, k' => if k = k' then aremove rest k' else (k, v) :: aremove rest k'

/-- Association-list insertion, embedding `HashMap::insert`: any existing
binding for the key is silently replaced by the new value. -/
def ainsert {β : Type} (m : List (GoalUuid × β)) (k : GoalUuid) (v : β) :
    List (GoalUuid × β) :=
  (k, v) :: aremove m k

/-- The three registry maps of `ActionServer<T>` (server.rs:83-85).  A goal
handle is represented by its current `GoalStatus`; the goal-state data itself
lives behind the rcl handle, and only the status is ever consulted. -/
structure ActionServerState where
  goal_handles : List (GoalUuid × GoalStatus)
  goal_results : List (GoalUuid × ResultMsg)
  result_requests : List (GoalUuid × List RequestId)
deriving DecidableEq

/-- Protocol messages emitted through the middleware, in call order. -/
inductive Event
  | publishStatus
  | sendGoalResponse (accepted : Bool)
  | sendCancelResponse (goalsCanceling : List GoalInfo) (returnCode : Int)
  | sendResultResponse (response : ResultMsg)
  | callAcceptedCb (uuid : GoalUuid)
deriving DecidableEq

/-- Embeds `ActionServer::send_goal_response` (server.rs:195-229).  The
middleware send outcome is the `mwSend` oracle; a `Timeout` rcl error is
swallowed (the remote client is gone), every other error propagates. -/
def send_goal_response (_accepted : Bool) (mwSend : Except RclrsError Unit) :
    Except RclrsError Unit :=
  match mwSend with
  | .ok _ => .ok ()
  | .error (.rclError .timeout) => .ok ()
  | .error e => .error e

/-- Embeds `ActionServer::send_cancel_response` (server.rs:327-356), with the
same Timeout-swallowing policy as `send_goal_response`. -/
def send_cancel_response (_goalsCanceling : List GoalInfo) (_returnCode : Int)
    (mwSend : Except RclrsError Unit) : Except RclrsError Unit :=
  match mwSend with
  | .ok _ => .ok ()
  | .error (.rclError .timeout) => .ok ()
  | .error e => .error e

/-- Embeds `ActionServer::send_result_response` (server.rs:480-509), with the
same Timeout-swallowing policy as `send_goal_response`. -/
def send_result_response (_response : ResultMsg) (mwSend : Except RclrsError Unit) :
    Except RclrsError Unit :=
  match mwSend with
  | .ok _ => .ok ()
  | .error (.rclError .timeout) => .ok ()
  | .error e => .error e

/-- Modelled from the spec: `ServerGoalHandle::cancel()` (spec section 4.B) is
not present under src/ (server.rs:410 calls it; action.rs lacks it).  Per the
spec it requires state ∈ active and not cancel-requested, i.e. it succeeds
exactly from Accepted or Executing and is refused otherwise. -/
def cancelOk : GoalStatus → Bool
  | .accepted => true
  | .executing => true
  | _ => false

/-- Decides whether a cancel verdict is `Accept`. -/
def isAccept : CancelResponse → Bool
  | .accept => true
  | .reject => false

/-- Per-candidate decision of the cancel loop (server.rs:405-421): look up the
handle — absent means Reject; ask the user — Reject means Reject; else attempt
`cancel()` — refusal means Reject, success means Accept.  The cancel_callback
invocation itself is a `todo!()` in the source; Modelled from the spec:
section 4.D step 2 calls `cancel_cb(handle)`, here the oracle `cancelCb`. -/
def decideCancel (handles : List (GoalUuid × GoalStatus))
    (cancelCb : GoalUuid → CancelResponse) (uuid : GoalUuid) : CancelResponse :=
  match alookup handles uuid with
  | some st =>
      if cancelCb uuid = CancelResponse.accept then
        if cancelOk st then CancelResponse.accept else CancelResponse.reject
      else CancelResponse.reject
  | none => CancelResponse.reject

/-- The `num_accepted` counter of the cancel loop (server.rs:396-436), folded
over the candidates in order. -/
def cancelLoopCount (handles : List (GoalUuid × GoalStatus))
    (cancelCb : GoalUuid → CancelResponse) :
    List GoalInfo → Nat → Nat
  | [], numAccepted => numAccepted
  | gi :: rest, numAccepted =>
      cancelLoopCount handles cancelCb rest
        (if isAccept (decideCancel handles cancelCb gi.uuid) then numAccepted + 1
         else numAccepted)

/-- The value of `num_accepted` after the cancel loop. -/
def cancelNumAccepted (handles : List (GoalUuid × GoalStatus))
    (cancelCb : GoalUuid → CancelResponse) (candidates : List GoalInfo) : Nat :=
  cancelLoopCount handles cancelCb candidates 0

/-- The `goals_canceling` array after the loop and the truncation
`goals_canceling.size = num_accepted` (server.rs:397-437).  The loop's
compaction step takes the mutable reference `goal_info_slot` to
`goals_canceling[num_accepted]` (server.rs:426-432) but never writes the
accepted entry through it, so the array contents are unchanged by the loop and
the truncation keeps the first `num_accepted` candidates as they were. -/
def cancelGoalsCanceling (handles : List (GoalUuid × GoalStatus))
    (cancelCb : GoalUuid → CancelResponse) (candidates : List GoalInfo) :
    List GoalInfo :=
  candidates.take (cancelNumAccepted handles cancelCb candidates)

/-- The aggregate cancel return code (server.rs:439-445): if the user rejected
every individual request while there was at least one candidate, overwrite the
middleware-provided code `r0` with `ERROR_REJECTED` (1). -/
def cancelReturnCode (handles : List (GoalUuid × GoalStatus))
    (cancelCb : GoalUuid → CancelResponse) (candidates : List GoalInfo)
    (r0 : Int) : Int :=
  if cancelNumAccepted handles cancelCb candidates = 0 ∧ 0 < candidates.length
  then 1 else r0

/-- Middleware oracle for the cancel path: outcome of
`rcl_action_take_cancel_request`, of `rcl_action_process_cancel_request`
(the candidate `goals_canceling` array it fills in plus the initial
`return_code`), of `rcl_action_publish_status`, and of
`rcl_action_send_cancel_response`. -/
structure CancelMw where
  take : Except RclrsError RequestId
  proc : Except RclrsError (List GoalInfo × Int)
  publish : Except RclrsError Unit
  send : Except RclrsError Unit

/-- Embeds `ActionServer::execute_cancel_request` (server.rs:358-455).
Returns the handler's result, the registry state afterwards, and the ordered
trace of middleware emissions.  A `ServiceTakeFailed` rcl error from the take
is a spurious wakeup and yields success with nothing done; the `goal_handles`
map itself is never mutated by this handler (handle state transitions happen
behind the rcl goal handle). -/
def execute_cancel_request (mw : CancelMw) (s : ActionServerState)
    (cancelCb : GoalUuid → CancelResponse) :
    Except RclrsError Unit × ActionServerState × List Event :=
  match mw.take with
  | .error (.rclError .serviceTakeFailed) => (.ok (), s, [])
  | .error e => (.error e, s, [])
  | .ok _ =>
    match mw.proc with
    | .error e => (.error e, s, [])
    | .ok (candidates, r0) =>
      let goals := cancelGoalsCanceling s.goal_handles cancelCb candidates
      let returnCode := cancelReturnCode s.goal_handles cancelCb candidates r0
      if 0 < cancelNumAccepted s.goal_handles cancelCb candidates then
        match mw.publish with
        | .error e => (.error e, s, [Event.publishStatus])
        | .ok _ =>
            (send_cancel_response goals returnCode mw.send, s,
              [Event.publishStatus, Event.sendCancelResponse goals returnCode])
      else
        (send_cancel_response goals returnCode mw.send, s,
          [Event.sendCancelResponse goals returnCode])

/-- Middleware oracle for the result path: outcome of
`rcl_action_take_result_request` (the requested goal uuid and the client
request id), the `rcl_action_server_goal_exists` check, and the outcome of
`rcl_action_send_result_response`. -/
structure ResultMw where
  take : Except RclrsError (GoalUuid × RequestId)
  goalExists : Bool
  send : Except RclrsError Unit

/-- Embeds `ActionServer::execute_result_request` (server.rs:511-554): on a
spurious wakeup return success; for an unknown goal send a result response
with status 0 (UNKNOWN) and a default-valued payload; for a known goal either
send the cached result or append the request id to `result_requests`. -/
def execute_result_request (mw : ResultMw) (s : ActionServerState) :
    Except RclrsError Unit × ActionServerState × List Event :=
  match mw.take with
  | .error (.rclError .serviceTakeFailed) => (.ok (), s, [])
  | .error e => (.error e, s, [])
  | .ok (uuid, requestId) =>
    if mw.goalExists then
      match alookup s.goal_results uuid with
      | some result =>
          (send_result_response result mw.send, s, [Event.sendResultResponse result])
      | none =>
          let queue := (alookup s.result_requests uuid).getD []
          (.ok (),
            { s with result_requests :=
                ainsert s.result_requests uuid (queue ++ [requestId]) },
            [])
    else
      let response := create_result_response 0 nullResultPayload
      (send_result_response response mw.send, s, [Event.sendResultResponse response])

/-- Modelled from the spec: `ServerGoalHandle::execute()` (spec section 4.B),
called at server.rs:293 but not present under src/: requires state Accepted,
transitions to Executing; anything else is an `InvalidTransition`. -/
def handleExecute : GoalStatus → Option GoalStatus
  | .accepted => some .executing
  | _ => none

/-- Middleware oracle for the goal path: outcome of
`rcl_action_take_goal_request` (the goal uuid and the client request id) and
of the accepted-response send and status publication.
`rcl_action_accept_new_goal` itself is assumed to succeed (the source panics
when it returns null). -/
structure GoalMw where
  take : Except RclrsError (GoalUuid × RequestId)
  sendResp : Except RclrsError Unit
  publish : Except RclrsError Unit

/-- Embeds `ActionServer::execute_goal_request` (server.rs:231-302).  The
goal_callback invocation and the accepted_callback invocation are `todo!()`
stubs in the source; Modelled from the spec: section 4.C steps 2 and 7 invoke
`goal_cb(id, goal)` (the oracle `goalCb`) and `accepted_cb(handle)` (recorded
as an event).  On Reject only a rejection response is sent; on acceptance the
middleware accepts the goal (new handles start Accepted), the accepted
response is sent, the handle is registered via plain map insertion,
AcceptAndExecute transitions the handle, and a status snapshot precedes the
accepted callback. -/
def execute_goal_request (mw : GoalMw) (s : ActionServerState)
    (goalCb : GoalUuid → GoalResponse) :
    Except RclrsError Unit × ActionServerState × List Event :=
  match mw.take with
  | .error (.rclError .serviceTakeFailed) => (.ok (), s, [])
  | .error e => (.error e, s, [])
  | .ok (uuid, _requestId) =>
    if goalCb uuid = GoalResponse.reject then
      (send_goal_response false mw.sendResp, s, [Event.sendGoalResponse false])
    else
      match send_goal_response true mw.sendResp with
      | .error e => (.error e, s, [Event.sendGoalResponse true])
      | .ok _ =>
        let s1 := { s with goal_handles := ainsert s.goal_handles uuid .accepted }
        let afterExec : Except RclrsError ActionServerState :=
          if goalCb uuid = GoalResponse.acceptAndExecute then
            match handleExecute .accepted with
            | some st =>
                .ok { s1 with goal_handles := ainsert s1.goal_handles uuid st }
            | none => .error .invalidTransition
          else .ok s1
        match afterExec with
        | .error e => (.error e, s1, [Event.sendGoalResponse true])
        | .ok s2 =>
          match mw.publish with
          | .error e =>
              (.error e, s2, [Event.sendGoalResponse true, Event.publishStatus])
          | .ok _ =>
              (.ok (), s2,
                [Event.sendGoalResponse true, Event.publishStatus,
                  Event.callAcceptedCb uuid])

/-- Embeds `ActionServer::execute_goal_expired` (server.rs:556-583): the
middleware expiration primitive is driven in a loop, reporting one expired
goal per iteration until it reports zero; the oracle `expired` is the list of
reported goal ids in order.  Each reported id is removed from the
`goal_handles` map; the source touches neither `goal_results` nor
`result_requests`. -/
def execute_goal_expired (expired : List GoalUuid) (s : ActionServerState) :
    ActionServerState :=
  match expired with
  | [] => s
  | u :: rest =>
      execute_goal_expired rest
        { s with goal_handles := aremove s.goal_handles u }

/-- The ServerGoalHandle of the stub module src/rclrs/src/action.rs:69-94; the
`rcl_handle` field stands for the opaque `Arc<rcl_action_goal_handle_t>`. -/
structure ServerGoalHandle where
  rcl_handle : Nat

/-- Embeds `ServerGoalHandle::is_canceling` (action.rs:83-85). -/
def ServerGoalHandle.is_canceling (_self : ServerGoalHandle) : Bool := false

/-- Embeds `ServerGoalHandle::is_active` (action.rs:87-89). -/
def ServerGoalHandle.is_active (_self : ServerGoalHandle) : Bool := false

/-- Embeds `ServerGoalHandle::is_executing` (action.rs:91-93). -/
def ServerGoalHandle.is_executing (_self : ServerGoalHandle) : Bool := false

end Rclrs

namespace Rclrs

/-- C10: For every ServerGoalHandle (the action.rs stub), the observers
`is_active`, `is_executing` and `is_canceling` return false regardless of the
underlying handle; the type offers no operation that could change this. -/
theorem server_goal_handle_observers_false (h : ServerGoalHandle) :
    h.is_active = false ∧ h.is_executing = false ∧ h.is_canceling = false :=
  ⟨rfl, rfl, rfl⟩

/-- C9: For every protocol response send (goal, cancel, result), a Timeout
error reported by the middleware send primitive yields success, while every
other middleware error is propagated to the caller unchanged. -/
theorem send_response_timeout_policy (accepted : Bool) (goals : List GoalInfo)
    (rc : Int) (resp : ResultMsg) (e : RclrsError) :
    send_goal_response accepted (.error e) =
      (if e = .rclError .timeout then .ok () else .error e) ∧
    send_cancel_response goals rc (.error e) =
      (if e = .rclError .timeout then .ok () else .error e) ∧
    send_result_response resp (.error e) =
      (if e = .rclError .timeout then .ok () else .error e) := by
  cases e with
  | rclError code =>
      cases code <;>
        simp [send_goal_response, send_cancel_response, send_result_response]
  | stringContainsNul =>
      simp [send_goal_response, send_cancel_response, send_result_response]
  | invalidTransition =>
      simp [send_goal_response, send_cancel_response, send_result_response]

theorem alookup_aremove {β : Type} (m : List (GoalUuid × β)) (k k' : GoalUuid) :
    alookup (aremove m k) k' = if k' = k then none else alookup m k' := by
  induction m with
  | nil => simp [aremove, alookup]
  | cons p rest ih =>
      obtain ⟨a, b⟩ := p
      simp only [aremove, alookup]
      split_ifs with h1 h2 h3 <;> simp_all [alookup]

theorem aremove_sublist {β : Type} (m : List (GoalUuid × β)) (k : GoalUuid) :
    (aremove m k).Sublist m := by
  induction m with
  | nil => simp [aremove]
  | cons p rest ih =>
      obtain ⟨a, b⟩ := p
      simp only [aremove]
      split_ifs with h
      · exact ih.cons _
      · exact ih.cons₂ _

theorem mem_aremove_ne {β : Type} (m : List (GoalUuid × β)) (k : GoalUuid)
    (p : GoalUuid × β) (hp : p ∈ aremove m k) : p.1 ≠ k := by
  induction m with
  | nil => simp [aremove] at hp
  | cons q rest ih =>
      obtain ⟨a, b⟩ := q
      simp only [aremove] at hp
      split_ifs at hp with h
      · exact ih hp
      · rcases List.mem_cons.mp hp with h' | h'
        · subst h'; exact h
        · exact ih h'

theorem alookup_ainsert_self {β : Type} (m : List (GoalUuid × β)) (k : GoalUuid)
    (v : β) : alookup (ainsert m k v) k = some v := by
  simp [ainsert, alookup]

theorem alookup_ainsert_ne {β : Type} (m : List (GoalUuid × β)) (k k' : GoalUuid)
    (v : β) (h : k' ≠ k) : alookup (ainsert m k v) k' = alookup m k' := by
  simp only [ainsert, alookup]
  rw [if_neg (fun hk => h hk.symm), alookup_aremove, if_neg h]

theorem ainsert_keys_nodup {β : Type} (m : List (GoalUuid × β)) (k : GoalUuid)
    (v : β) (h : (m.map Prod.fst).Nodup) :
    ((ainsert m k v).map Prod.fst).Nodup := by
  simp only [ainsert, List.map_cons, List.nodup_cons]
  constructor
  · intro hk
    rcases List.mem_map.mp hk with ⟨p, hp, hpk⟩
    exact mem_aremove_ne m k p hp hpk
  · exact h.sublist ((aremove_sublist m k).map Prod.fst)

/-- C3 counterexample: inserting a handle whose GoalId (1) is already bound in
the active-handles map does not fail with DuplicateGoal and does not panic —
the insertion is total and silently replaces the existing handle (here the
registered status changes from Accepted to Executing), refuting the claimed
per-entry failure. -/
theorem registry_insert_counterexample :
    ainsert [((1 : GoalUuid), GoalStatus.accepted)] 1 GoalStatus.executing =
      [(1, GoalStatus.executing)] ∧
    alookup (ainsert [((1 : GoalUuid), GoalStatus.accepted)] 1 GoalStatus.executing) 1 =
      some GoalStatus.executing ∧
    GoalStatus.executing ≠ GoalStatus.accepted := by
  refine ⟨rfl, rfl, by decide⟩

/-- C3 (amended): registering a goal handle under an already-present GoalId
silently replaces the existing handle (lookup afterwards yields the new
handle, other ids are untouched, no failure is reported); the registry still
binds each GoalId at most once (key distinctness is preserved). -/
theorem registry_insert_replaces_silently (m : List (GoalUuid × GoalStatus))
    (k : GoalUuid) (v : GoalStatus) :
    alookup (ainsert m k v) k = some v ∧
    (∀ k', k' ≠ k → alookup (ainsert m k v) k' = alookup m k') ∧
    ((m.map Prod.fst).Nodup → ((ainsert m k v).map Prod.fst).Nodup) :=
  ⟨alookup_ainsert_self m k v,
   fun k' h => alookup_ainsert_ne m k k' v h,
   ainsert_keys_nodup m k v⟩

theorem registry_insert_replaces_silently_witness :
    (2 : GoalUuid) ≠ 1 ∧
    ([((1 : GoalUuid), GoalStatus.accepted)].map Prod.fst).Nodup ∧
    alookup (ainsert [((1 : GoalUuid), GoalStatus.accepted)] 1 GoalStatus.canceling) 1 =
      some GoalStatus.canceling ∧
    alookup (ainsert [((1 : GoalUuid), GoalStatus.accepted)] 1 GoalStatus.canceling) 2 =
      alookup [((1 : GoalUuid), GoalStatus.accepted)] 2 ∧
    ((ainsert [((1 : GoalUuid), GoalStatus.accepted)] 1 GoalStatus.canceling).map
        Prod.fst).Nodup :=
  ⟨by decide, by decide,
   (registry_insert_replaces_silently [(1, GoalStatus.accepted)] 1 GoalStatus.canceling).1,
   (registry_insert_replaces_silently [(1, GoalStatus.accepted)] 1 GoalStatus.canceling).2.1
     2 (by decide),
   (registry_insert_replaces_silently [(1, GoalStatus.accepted)] 1 GoalStatus.canceling).2.2
     (by decide)⟩

theorem execute_goal_expired_results_eq (expired : List GoalUuid)
    (s : ActionServerState) :
    (execute_goal_expired expired s).goal_results = s.goal_results ∧
    (execute_goal_expired expired s).result_requests = s.result_requests := by
  induction expired generalizing s with
  | nil => exact ⟨rfl, rfl⟩
  | cons u rest ih => exact ih _

theorem execute_goal_expired_lookup_none (expired : List GoalUuid)
    (s : ActionServerState) (u : GoalUuid)
    (h : alookup s.goal_handles u = none) :
    alookup (execute_goal_expired expired s).goal_handles u = none := by
  induction expired generalizing s with
  | nil => exact h
  | cons v rest ih =>
      apply ih
      simp only [alookup_aremove]
      split_ifs with hv
      · rfl
      · exact h

/-- C2 counterexample: goal id 1 is registered in all three maps; after
execute(GoalExpired) reports id 1 expired, the id is gone from the
active-handles map but still present in both the cached-results map and the
queued-result-requests map, refuting removal "from all three maps". -/
theorem execute_goal_expired_counterexample :
    execute_goal_expired [1]
        ⟨[(1, GoalStatus.succeeded)], [(1, ⟨4, 7⟩)], [(1, [5])]⟩ =
      ⟨[], [(1, ⟨4, 7⟩)], [(1, [5])]⟩ ∧
    alookup (execute_goal_expired [1]
        ⟨[(1, GoalStatus.succeeded)], [(1, ⟨4, 7⟩)], [(1, [5])]⟩).goal_results 1 =
      some ⟨4, 7⟩ ∧
    alookup (execute_goal_expired [1]
        ⟨[(1, GoalStatus.succeeded)], [(1, ⟨4, 7⟩)], [(1, [5])]⟩).result_requests 1 =
      some [5] := by
  refine ⟨rfl, rfl, rfl⟩

/-- C2 (amended): execute(GoalExpired) drives the middleware expiration
primitive until it reports zero expirations, and every goal id it reported
expired is absent from the active-handles map afterwards; the cached-results
and queued-result-requests maps are left unchanged. -/
theorem execute_goal_expired_removes_handles_only (expired : List GoalUuid)
    (s : ActionServerState) :
    (∀ u, u ∈ expired →
        alookup (execute_goal_expired expired s).goal_handles u = none) ∧
    (execute_goal_expired expired s).goal_results = s.goal_results ∧
    (execute_goal_expired expired s).result_requests = s.result_requests := by
  refine ⟨?_, execute_goal_expired_results_eq expired s⟩
  induction expired generalizing s with
  | nil => intro u hu; simp at hu
  | cons v rest ih =>
      intro u hu
      rcases List.mem_cons.mp hu with h | h
      · subst h
        rw [execute_goal_expired]
        apply execute_goal_expired_lookup_none
        simp [alookup_aremove]
      · exact ih _ u h

theorem execute_goal_expired_removes_handles_only_witness :
    (1 : GoalUuid) ∈ [(1 : GoalUuid), 2] ∧
    alookup (execute_goal_expired [1, 2]
        ⟨[(1, GoalStatus.succeeded), (2, GoalStatus.aborted), (3, GoalStatus.executing)],
          [(1, ⟨4, 7⟩)], [(2, [9])]⟩).goal_handles 1 = none ∧
    (execute_goal_expired [1, 2]
        ⟨[(1, GoalStatus.succeeded), (2, GoalStatus.aborted), (3, GoalStatus.executing)],
          [(1, ⟨4, 7⟩)], [(2, [9])]⟩).goal_results = [(1, ⟨4, 7⟩)] ∧
    (execute_goal_expired [1, 2]
        ⟨[(1, GoalStatus.succeeded), (2, GoalStatus.aborted), (3, GoalStatus.executing)],
          [(1, ⟨4, 7⟩)], [(2, [9])]⟩).result_requests = [(2, [9])] :=
  ⟨by decide,
   (execute_goal_expired_removes_handles_only [1, 2]
      ⟨[(1, GoalStatus.succeeded), (2, GoalStatus.aborted), (3, GoalStatus.executing)],
        [(1, ⟨4, 7⟩)], [(2, [9])]⟩).1 1 (by decide),
   (execute_goal_expired_removes_handles_only [1, 2]
      ⟨[(1, GoalStatus.succeeded), (2, GoalStatus.aborted), (3, GoalStatus.executing)],
        [(1, ⟨4, 7⟩)], [(2, [9])]⟩).2.1,
   (execute_goal_expired_removes_handles_only [1, 2]
      ⟨[(1, GoalStatus.succeeded), (2, GoalStatus.aborted), (3, GoalStatus.executing)],
        [(1, ⟨4, 7⟩)], [(2, [9])]⟩).2.2⟩

/-- C4: a result request for a GoalId the middleware goal-exists check does
not know yields exactly one result response, carrying status code 0 (UNKNOWN)
and the default-valued result payload, and the registry state (all three maps)
is returned unchanged. -/
theorem execute_result_request_unknown_goal (mw : ResultMw)
    (s : ActionServerState) (uuid : GoalUuid) (rid : RequestId)
    (htake : mw.take = Except.ok (uuid, rid)) (hexists : mw.goalExists = false) :
    (execute_result_request mw s).2.1 = s ∧
    (execute_result_request mw s).2.2 =
      [Event.sendResultResponse (create_result_response 0 nullResultPayload)] := by
  simp [execute_result_request, htake, hexists]

theorem execute_result_request_unknown_goal_witness :
    (⟨Except.ok (4, 11), false, Except.ok ()⟩ : ResultMw).take = Except.ok (4, 11) ∧
    (⟨Except.ok (4, 11), false, Except.ok ()⟩ : ResultMw).goalExists = false ∧
    (execute_result_request ⟨Except.ok (4, 11), false, Except.ok ()⟩
        ⟨[(1, GoalStatus.executing)], [], []⟩).2.1 =
      ⟨[(1, GoalStatus.executing)], [], []⟩ ∧
    (execute_result_request ⟨Except.ok (4, 11), false, Except.ok ()⟩
        ⟨[(1, GoalStatus.executing)], [], []⟩).2.2 =
      [Event.sendResultResponse (create_result_response 0 nullResultPayload)] := by
  refine ⟨rfl, rfl, ?_⟩
  exact execute_result_request_unknown_goal _ _ 4 11 rfl rfl

theorem cancelLoopCount_eq (handles : List (GoalUuid × GoalStatus))
    (cb : GoalUuid → CancelResponse) (l : List GoalInfo) (n : Nat) :
    cancelLoopCount handles cb l n =
      n + l.countP (fun gi => isAccept (decideCancel handles cb gi.uuid)) := by
  induction l generalizing n with
  | nil => simp [cancelLoopCount]
  | cons gi rest ih =>
      rw [cancelLoopCount, ih]
      simp only [List.countP_cons]
      split_ifs with h <;> omega

/-- C5: a cancel candidate is decided Accept exactly when its handle is in the
registry, the user cancel callback returns Accept, and the handle's cancel()
transition succeeds; absence, user rejection, or a refused transition each
yield Reject (the decision type has only those two outcomes).  Moreover the
handler's accepted count is exactly the number of candidates so decided. -/
theorem decideCancel_accept_iff (handles : List (GoalUuid × GoalStatus))
    (cb : GoalUuid → CancelResponse) (uuid : GoalUuid)
    (candidates : List GoalInfo) :
    (decideCancel handles cb uuid = CancelResponse.accept ↔
      ∃ st, alookup handles uuid = some st ∧ cb uuid = CancelResponse.accept ∧
        cancelOk st = true) ∧
    cancelNumAccepted handles cb candidates =
      candidates.countP (fun gi => isAccept (decideCancel handles cb gi.uuid)) := by
  constructor
  · cases h : alookup handles uuid with
    | none => simp [decideCancel, h]
    | some st =>
        simp only [decideCancel, h]
        by_cases hcb : cb uuid = CancelResponse.accept
        · cases hok : cancelOk st <;> simp [hcb, hok]
        · simp [hcb]
  · simpa using cancelLoopCount_eq handles cb candidates 0

/-- C6: assuming the middleware-filled initial return code `r0` is not the
REJECTED code 1 (the middleware's own codes are 0, unknown-goal and
goal-terminated; 1 is assigned only by this handler), the aggregate cancel
return code equals REJECTED (1) exactly when the candidate set was non-empty
and no entry was accepted; in particular an empty candidate set never yields
REJECTED. -/
theorem cancelReturnCode_rejected_iff (handles : List (GoalUuid × GoalStatus))
    (cb : GoalUuid → CancelResponse) (candidates : List GoalInfo) (r0 : Int)
    (h : r0 ≠ 1) :
    cancelReturnCode handles cb candidates r0 = 1 ↔
      (0 < candidates.length ∧ cancelNumAccepted handles cb candidates = 0) := by
  unfold cancelReturnCode
  split_ifs with hc
  · simp [hc.1, hc.2]
  · constructor
    · intro h1; exact absurd h1 h
    · intro hand; exact absurd ⟨hand.2, hand.1⟩ hc

theorem cancelReturnCode_rejected_iff_witness :
    (0 : Int) ≠ 1 ∧
    (cancelReturnCode [] (fun _ => CancelResponse.reject) [⟨3, 0⟩] 0 = 1 ↔
      (0 < ([⟨3, 0⟩] : List GoalInfo).length ∧
        cancelNumAccepted [] (fun _ => CancelResponse.reject) [⟨3, 0⟩] = 0)) :=
  ⟨by decide,
   cancelReturnCode_rejected_iff [] (fun _ => CancelResponse.reject) [⟨3, 0⟩] 0
     (by decide)⟩

/-- C8: for each of the three request handlers, a ServiceTakeFailed error from
the middleware take primitive (spurious wakeup) makes the handler return
success with the registry state unchanged and no message emitted and no
callback invoked (the emission trace is empty). -/
theorem execute_spurious_take_is_noop (s : ActionServerState)
    (mwG : GoalMw) (mwC : CancelMw) (mwR : ResultMw)
    (goalCb : GoalUuid → GoalResponse) (cancelCb : GoalUuid → CancelResponse)
    (hG : mwG.take =
      Except.error (RclrsError.rclError RclReturnCode.serviceTakeFailed))
    (hC : mwC.take =
      Except.error (RclrsError.rclError RclReturnCode.serviceTakeFailed))
    (hR : mwR.take =
      Except.error (RclrsError.rclError RclReturnCode.serviceTakeFailed)) :
    execute_goal_request mwG s goalCb = (Except.ok (), s, []) ∧
    execute_cancel_request mwC s cancelCb = (Except.ok (), s, []) ∧
    execute_result_request mwR s = (Except.ok (), s, []) := by
  refine ⟨?_, ?_, ?_⟩
  · simp [execute_goal_request, hG]
  · simp [execute_cancel_request, hC]
  · simp [execute_result_request, hR]

theorem execute_spurious_take_is_noop_witness :
    (⟨Except.error (RclrsError.rclError RclReturnCode.serviceTakeFailed),
        Except.ok (), Except.ok ()⟩ : GoalMw).take =
      Except.error (RclrsError.rclError RclReturnCode.serviceTakeFailed) ∧
    (⟨Except.error (RclrsError.rclError RclReturnCode.serviceTakeFailed),
        Except.ok ([], 0), Except.ok (), Except.ok ()⟩ : CancelMw).take =
      Except.error (RclrsError.rclError RclReturnCode.serviceTakeFailed) ∧
    (⟨Except.error (RclrsError.rclError RclReturnCode.serviceTakeFailed),
        true, Except.ok ()⟩ : ResultMw).take =
      Except.error (RclrsError.rclError RclReturnCode.serviceTakeFailed) ∧
    execute_goal_request
        ⟨Except.error (RclrsError.rclError RclReturnCode.serviceTakeFailed),
          Except.ok (), Except.ok ()⟩
        ⟨[(1, GoalStatus.accepted)], [], []⟩ (fun _ => GoalResponse.reject) =
      (Except.ok (), ⟨[(1, GoalStatus.accepted)], [], []⟩, []) ∧
    execute_cancel_request
        ⟨Except.error (RclrsError.rclError RclReturnCode.serviceTakeFailed),
          Except.ok ([], 0), Except.ok (), Except.ok ()⟩
        ⟨[(1, GoalStatus.accepted)], [], []⟩ (fun _ => CancelResponse.reject) =
      (Except.ok (), ⟨[(1, GoalStatus.accepted)], [], []⟩, []) ∧
    execute_result_request
        ⟨Except.error (RclrsError.rclError RclReturnCode.serviceTakeFailed),
          true, Except.ok ()⟩
        ⟨[(1, GoalStatus.accepted)], [], []⟩ =
      (Except.ok (), ⟨[(1, GoalStatus.accepted)], [], []⟩, []) := by
  refine ⟨rfl, rfl, rfl, ?_⟩
  exact execute_spurious_take_is_noop ⟨[(1, GoalStatus.accepted)], [], []⟩
    _ _ _ (fun _ => GoalResponse.reject) (fun _ => CancelResponse.reject)
    rfl rfl rfl

/-- C7: once the take and the middleware candidate expansion have succeeded,
the cancel handler's emission trace contains a status publication exactly when
at least one entry was accepted, and every status publication in the trace
strictly precedes every cancel response in it; with no accepted entry no
status publication occurs. -/
theorem execute_cancel_request_publish_before_send (mw : CancelMw)
    (s : ActionServerState) (cb : GoalUuid → CancelResponse) (rid : RequestId)
    (candidates : List GoalInfo) (r0 : Int)
    (htake : mw.take = Except.ok rid)
    (hproc : mw.proc = Except.ok (candidates, r0)) :
    (Event.publishStatus ∈ (execute_cancel_request mw s cb).2.2 ↔
      0 < cancelNumAccepted s.goal_handles cb candidates) ∧
    (∀ i j : Nat, i < (execute_cancel_request mw s cb).2.2.length →
      j < (execute_cancel_request mw s cb).2.2.length →
      (execute_cancel_request mw s cb).2.2.getD i Event.publishStatus =
        Event.publishStatus →
      (∃ gs rc, (execute_cancel_request mw s cb).2.2.getD j Event.publishStatus =
        Event.sendCancelResponse gs rc) →
      i < j) := by
  by_cases hacc : 0 < cancelNumAccepted s.goal_handles cb candidates
  · cases hpub : mw.publish with
    | ok u =>
        have htr : (execute_cancel_request mw s cb).2.2 =
            [Event.publishStatus,
              Event.sendCancelResponse
                (cancelGoalsCanceling s.goal_handles cb candidates)
                (cancelReturnCode s.goal_handles cb candidates r0)] := by
          simp [execute_cancel_request, htake, hproc, hpub, hacc]
        rw [htr]
        refine ⟨by simp [hacc], ?_⟩
        intro i j hi hj hp hs
        obtain ⟨gs, rc, hsend⟩ := hs
        simp only [List.length_cons, List.length_nil] at hi hj
        interval_cases i <;> interval_cases j <;> simp_all
    | error e =>
        have htr : (execute_cancel_request mw s cb).2.2 = [Event.publishStatus] := by
          simp [execute_cancel_request, htake, hproc, hpub, hacc]
        rw [htr]
        refine ⟨by simp [hacc], ?_⟩
        intro i j hi hj hp hs
        obtain ⟨gs, rc, hsend⟩ := hs
        simp only [List.length_cons, List.length_nil] at hi hj
        interval_cases j
        simp_all
  · have htr : (execute_cancel_request mw s cb).2.2 =
        [Event.sendCancelResponse
          (cancelGoalsCanceling s.goal_handles cb candidates)
          (cancelReturnCode s.goal_handles cb candidates r0)] := by
      simp [execute_cancel_request, htake, hproc, hacc]
    rw [htr]
    refine ⟨by simp [hacc], ?_⟩
    intro i j hi hj hp hs
    simp only [List.length_cons, List.length_nil] at hi hj
    interval_cases i
    simp_all

theorem execute_cancel_request_publish_before_send_witness :
    (⟨Except.ok 7, Except.ok ([⟨1, 0⟩], 0), Except.ok (), Except.ok ()⟩ :
        CancelMw).take = Except.ok 7 ∧
    (⟨Except.ok 7, Except.ok ([⟨1, 0⟩], 0), Except.ok (), Except.ok ()⟩ :
        CancelMw).proc = Except.ok ([⟨1, 0⟩], 0) ∧
    ((Event.publishStatus ∈
        (execute_cancel_request
          ⟨Except.ok 7, Except.ok ([⟨1, 0⟩], 0), Except.ok (), Except.ok ()⟩
          ⟨[(1, GoalStatus.executing)], [], []⟩
          (fun _ => CancelResponse.accept)).2.2 ↔
      0 < cancelNumAccepted [(1, GoalStatus.executing)]
        (fun _ => CancelResponse.accept) [⟨1, 0⟩]) ∧
    (∀ i j : Nat,
      i < (execute_cancel_request
        ⟨Except.ok 7, Except.ok ([⟨1, 0⟩], 0), Except.ok (), Except.ok ()⟩
        ⟨[(1, GoalStatus.executing)], [], []⟩
        (fun _ => CancelResponse.accept)).2.2.length →
      j < (execute_cancel_request
        ⟨Except.ok 7, Except.ok ([⟨1, 0⟩], 0), Except.ok (), Except.ok ()⟩
        ⟨[(1, GoalStatus.executing)], [], []⟩
        (fun _ => CancelResponse.accept)).2.2.length →
      (execute_cancel_request
        ⟨Except.ok 7, Except.ok ([⟨1, 0⟩], 0), Except.ok (), Except.ok ()⟩
        ⟨[(1, GoalStatus.executing)], [], []⟩
        (fun _ => CancelResponse.accept)).2.2.getD i Event.publishStatus =
        Event.publishStatus →
      (∃ gs rc, (execute_cancel_request
        ⟨Except.ok 7, Except.ok ([⟨1, 0⟩], 0), Except.ok (), Except.ok ()⟩
        ⟨[(1, GoalStatus.executing)], [], []⟩
        (fun _ => CancelResponse.accept)).2.2.getD j Event.publishStatus =
        Event.sendCancelResponse gs rc) →
      i < j)) :=
  ⟨rfl, rfl,
   execute_cancel_request_publish_before_send
     ⟨Except.ok 7, Except.ok ([⟨1, 0⟩], 0), Except.ok (), Except.ok ()⟩
     ⟨[(1, GoalStatus.executing)], [], []⟩
     (fun _ => CancelResponse.accept) 7 [⟨1, 0⟩] 0 rfl rfl⟩

/-- C1 (code bug): with registry holding goal 1 in Executing and a user
callback that accepts, the middleware candidate set [goal 0, goal 1] (goal 0
unknown to the registry) yields a cancel response whose goals_canceling list
is [goal 0] — the rejected candidate's descriptor — while the accepted
candidate's descriptor (goal 1) is absent.  The compaction shift in
server.rs:424-433 binds `goal_info_slot` but never writes the accepted entry
through it, contradicting both its own comment and the claim; only the length
of the list (1, the accepted count) is as claimed. -/
theorem execute_cancel_request_drops_accepted_goal :
    decideCancel [((1 : GoalUuid), GoalStatus.executing)]
        (fun _ => CancelResponse.accept) 0 = CancelResponse.reject ∧
    decideCancel [((1 : GoalUuid), GoalStatus.executing)]
        (fun _ => CancelResponse.accept) 1 = CancelResponse.accept ∧
    (execute_cancel_request
        ⟨Except.ok 0, Except.ok ([⟨0, 0⟩, ⟨1, 0⟩], 0), Except.ok (), Except.ok ()⟩
        ⟨[(1, GoalStatus.executing)], [], []⟩
        (fun _ => CancelResponse.accept)).2.2 =
      [Event.publishStatus, Event.sendCancelResponse [⟨0, 0⟩] 0] ∧
    (⟨1, 0⟩ : GoalInfo) ∉ [(⟨0, 0⟩ : GoalInfo)] := by
  refine ⟨rfl, rfl, by decide, by decide⟩

end Rclrs
